import Mathlib

/-!
Shallow embedding of the eframe native integration layer
(crates/eframe/src/native/epi_integration.rs and crates/eframe/src/lib.rs).

Conventions of the embedding:
* Instants and durations are rationals (seconds).  A call that reads the
  clock in Rust receives the current instant as an explicit argument.
* Side effects on external resources (the key-value storage, the native
  window) are returned as explicit event traces.
* Black-box collaborators (the egui context run, the raw-input hook, the
  application) are fields of an App record: functions from the data they
  receive in Rust to the data they produce.
-/

/-- Two-dimensional vector with rational components, standing in for
the f32-based egui Vec2.  The claims about it concern only the
componentwise min/max lattice structure, which is faithfully captured
over any linearly ordered field. -/
structure Vec2 where
  x : ℚ
  y : ℚ
deriving DecidableEq, Repr

def Vec2.ZERO : Vec2 := ⟨0, 0⟩

/-- egui Vec2::splat. -/
def Vec2.splat (v : ℚ) : Vec2 := ⟨v, v⟩

/-- Componentwise maximum, as in egui Vec2::max. -/
def Vec2.max (a b : Vec2) : Vec2 := ⟨Max.max a.x b.x, Max.max a.y b.y⟩

/-- Componentwise minimum, as in egui Vec2::min. -/
def Vec2.min (a b : Vec2) : Vec2 := ⟨Min.min a.x b.x, Min.min a.y b.y⟩

/-- egui NumExt::at_most: clamp from above, i.e. componentwise min. -/
def Vec2.at_most (a lim : Vec2) : Vec2 := a.min lim

/-- Componentwise order on sizes. -/
def Vec2.le (a b : Vec2) : Prop := a.x ≤ b.x ∧ a.y ≤ b.y

instance : DecidablePred (fun p : Vec2 × Vec2 => p.1.le p.2) := by
  intro p; unfold Vec2.le; infer_instance

/-- Viewport identifiers; ROOT is the primary window. -/
abbrev ViewportId := Nat

def ViewportId.ROOT : ViewportId := 0

/-- The viewport commands relevant to the integration layer: the
close-veto command, and an opaque remainder. -/
inductive ViewportCommand where
  | CancelClose : ViewportCommand
  | Other : Nat → ViewportCommand
deriving DecidableEq, Repr

/-- Modelled from the spec: the FullOutput of the black-box UI library
(egui is outside the excerpt).  Per the spec it contains per-viewport
commands (including the close-cancel command) and accumulable
paint/texture delta output; meshes stand for the accumulable paint
output. -/
structure FullOutput where
  meshes : List Nat
  viewport_commands : ViewportId → List ViewportCommand

/-- The Default::default() value taken by std::mem::take. -/
def FullOutput.empty : FullOutput := ⟨[], fun _ => []⟩

/-- Modelled from the spec: FullOutput::append merges a newer output
into an older one by accumulation, not replacement ("Merge this pass's
output into the pending buffer (accumulation, not replacement)"). -/
def FullOutput.append (a b : FullOutput) : FullOutput :=
  ⟨a.meshes ++ b.meshes, fun v => a.viewport_commands v ++ b.viewport_commands v⟩

/-- Raw input as far as the integration layer inspects it: the stamped
time, whether the root viewport got a close request
(raw_input.viewport().close_requested()), and an opaque payload the UI
pass may read. -/
structure RawInput where
  time : Option ℚ
  close_requested : Bool
  payload : Nat
deriving DecidableEq, Repr

/-- The application plus the black-box egui context, as consumed by
EpiIntegration.  raw_input_hook is App::raw_input_hook; update_run is
the FullOutput produced by egui Context::run around App::update for the
given (hooked) raw input. -/
structure App where
  raw_input_hook : RawInput → RawInput
  update_run : RawInput → FullOutput
  auto_save_interval : ℚ
  persist_egui_memory : Bool

/-- Effects performed on the storage during EpiIntegration::save. -/
inductive StorageEvent where
  | setWindowSettings : StorageEvent
  | setEguiMemory : StorageEvent
  | appSave : StorageEvent
  | flush : StorageEvent
deriving DecidableEq, Repr

/-- Effects performed on the native window. -/
inductive WindowCall where
  | setVisible : Bool → WindowCall
deriving DecidableEq, Repr

/-- Window events, as far as EpiIntegration::on_window_event inspects
them: a pointer-button press with its button, or anything else. -/
inductive MouseButton where
  | Left : MouseButton
  | RightOrOther : Nat → MouseButton
deriving DecidableEq, Repr

inductive WindowEvent where
  | PointerButtonPressed : MouseButton → WindowEvent
  | OtherEvent : Nat → WindowEvent
deriving DecidableEq, Repr

/-- epi::Frame, restricted to the fields the claims touch: the storage
(presence = persistence enabled) and the last reported cpu usage. -/
structure Frame where
  storage : Option Unit
  cpu_usage : Option ℚ
deriving DecidableEq, Repr

/-- The EpiIntegration state (crates/eframe/src/native/epi_integration.rs). -/
structure EpiIntegration where
  frame : Frame
  last_auto_save : ℚ
  beginning : ℚ
  is_first_frame : Bool
  pending_full_output : FullOutput
  close : Bool
  can_drag_window : Bool
  persist_window : Bool

/-- EpiIntegration::new: records now as elapsed-time origin and
last-autosave time, marks the first frame pending, close is false,
pending output empty. -/
def EpiIntegration.new (now : ℚ) (storage : Option Unit) (persist_window : Bool) :
    EpiIntegration :=
  { frame := { storage := storage, cpu_usage := none }
    last_auto_save := now
    beginning := now
    is_first_frame := true
    pending_full_output := FullOutput.empty
    close := false
    can_drag_window := false
    persist_window := persist_window }

/-- EpiIntegration::should_close: pure read of the close flag. -/
def EpiIntegration.should_close (st : EpiIntegration) : Bool := st.close

/-- EpiIntegration::on_window_event: records a left-button press in
can_drag_window, then forwards to the (black-box) input translator. -/
def EpiIntegration.on_window_event (st : EpiIntegration) (event : WindowEvent) :
    EpiIntegration :=
  match event with
  | WindowEvent.PointerButtonPressed b =>
      { st with can_drag_window := st.can_drag_window || decide (b = MouseButton.Left) }
  | WindowEvent.OtherEvent _ => st

/-- EpiIntegration::report_frame_time. -/
def EpiIntegration.report_frame_time (st : EpiIntegration) (seconds : ℚ) :
    EpiIntegration :=
  { st with frame := { st.frame with cpu_usage := some seconds } }

/-- EpiIntegration::update.  viewport_ui_cb models the deferred
viewport callback: when present, the egui run invokes it (child
viewport) and the value is the resulting FullOutput as a function of
the raw input; when absent this is the root pass and App::update runs.
Returns the FullOutput handed back to the caller together with the new
state.  now is the clock read hidden in Instant::elapsed. -/
def EpiIntegration.update (st : EpiIntegration) (app : App)
    (viewport_ui_cb : Option (RawInput → FullOutput)) (raw_input : RawInput)
    (now : ℚ) : FullOutput × EpiIntegration :=
  let raw_input := { raw_input with time := some (now - st.beginning) }
  let close_requested := raw_input.close_requested
  let raw_input := app.raw_input_hook raw_input
  let full_output :=
    match viewport_ui_cb with
    | some cb => cb raw_input
    | none => app.update_run raw_input
  let is_root_viewport := viewport_ui_cb.isNone
  let st :=
    if is_root_viewport ∧ close_requested then
      let canceled :=
        (full_output.viewport_commands ViewportId.ROOT).contains
          ViewportCommand.CancelClose
      if canceled then st else { st with close := true }
    else st
  let pending := st.pending_full_output.append full_output
  (pending, { st with pending_full_output := FullOutput.empty })

/-- EpiIntegration::post_rendering: on the first call only, make the
window visible; std::mem::take clears the first-frame flag. -/
def EpiIntegration.post_rendering (st : EpiIntegration) :
    List WindowCall × EpiIntegration :=
  if st.is_first_frame then
    ([WindowCall.setVisible true], { st with is_first_frame := false })
  else
    ([], { st with is_first_frame := false })

/-- EpiIntegration::save: when the storage is present, write window
settings (if a window is given and window persistence is enabled), then
egui memory (if the app opts in), then the app state, then flush.
Returns the trace of storage effects in order. -/
def EpiIntegration.save (st : EpiIntegration) (app : App)
    (window : Option Unit) : List StorageEvent :=
  match st.frame.storage with
  | none => []
  | some _ =>
      (match window with
       | some _ =>
           if st.persist_window then [StorageEvent.setWindowSettings] else []
       | none => []) ++
      (if app.persist_egui_memory then [StorageEvent.setEguiMemory] else []) ++
      [StorageEvent.appSave, StorageEvent.flush]

/-- EpiIntegration::maybe_autosave: if the time since the last autosave
exceeds the app's interval, perform a full save and reset the timer.
The Bool records whether save was invoked; the trace is its storage
effects. -/
def EpiIntegration.maybe_autosave (st : EpiIntegration) (app : App)
    (window : Option Unit) (now : ℚ) :
    Bool × List StorageEvent × EpiIntegration :=
  if now - st.last_auto_save > app.auto_save_interval then
    (true, st.save app window, { st with last_auto_save := now })
  else
    (false, [], st)

/-- A monitor as the windowing layer reports it: the current video
mode (physical size), when it has one, and the monitor scale factor. -/
structure Monitor where
  mode : Option (ℚ × ℚ)
  scale_factor : ℚ
deriving DecidableEq, Repr

/-- winit to_logical: physical size divided by the given factor. -/
def toLogical (physical : ℚ × ℚ) (factor : ℚ) : Vec2 :=
  ⟨physical.1 / factor, physical.2 / factor⟩

/-- The componentwise running maximum computed by the loop of
largest_monitor_point_size, starting from Vec2::ZERO and skipping
monitors without a current video mode. -/
def monitorMaxSize (egui_zoom_factor : ℚ) (monitors : List Monitor) : Vec2 :=
  monitors.foldl
    (fun max_size monitor =>
      match monitor.mode with
      | none => max_size
      | some physical =>
          max_size.max (toLogical physical (egui_zoom_factor * monitor.scale_factor)))
    Vec2.ZERO

/-- largest_monitor_point_size: componentwise maximum of the logical
sizes of all monitors' current modes; the sentinel splat 16000 when the
maximum stays zero. -/
def largest_monitor_point_size (egui_zoom_factor : ℚ)
    (monitors : List Monitor) : Vec2 :=
  let max_size := monitorMaxSize egui_zoom_factor monitors
  if max_size = Vec2.ZERO then Vec2.splat 16000 else max_size

/-- egui ViewportBuilder, restricted to the fields the integration
layer reads and writes. -/
structure ViewportBuilder where
  title : Option String
  position : Option Vec2
  inner_size : Option Vec2
  clamp_size_to_monitor_size : Option Bool

def ViewportBuilder.with_position (b : ViewportBuilder) (p : Vec2) : ViewportBuilder :=
  { b with position := some p }

def ViewportBuilder.with_inner_size (b : ViewportBuilder) (s : Vec2) : ViewportBuilder :=
  { b with inner_size := some s }

/-- Modelled from the spec: egui_winit WindowSettings (the persisted
window geometry; the egui_winit crate is outside the excerpt): logical
position, logical size, maximized flag. -/
structure WindowSettings where
  position : Option Vec2
  inner_size_points_field : Option Vec2
  maximized : Bool

/-- Modelled from the spec: WindowSettings::clamp_size_to_sane_values
clamps the restored size to the largest available monitor's logical
size. -/
def WindowSettings.clamp_size_to_sane_values (ws : WindowSettings)
    (max_size : Vec2) : WindowSettings :=
  { ws with
    inner_size_points_field := ws.inner_size_points_field.map (·.at_most max_size) }

/-- Modelled from the spec: WindowSettings::clamp_position_to_monitors
clamps the restored position so the window remains reachable on some
monitor. -/
def WindowSettings.clamp_position_to_monitors (ws : WindowSettings)
    (egui_zoom_factor : ℚ) (monitors : List Monitor) : WindowSettings :=
  let bound := largest_monitor_point_size egui_zoom_factor monitors
  { ws with
    position := ws.position.map (fun p => ⟨Min.min (Max.max p.x 0) bound.x,
                                           Min.min (Max.max p.y 0) bound.y⟩) }

/-- Modelled from the spec: WindowSettings::initialize_viewport_builder
applies the restored geometry on top of the requested options. -/
def WindowSettings.initialize_viewport_builder (ws : WindowSettings)
    (builder : ViewportBuilder) : ViewportBuilder :=
  let builder :=
    match ws.position with
    | some p => builder.with_position p
    | none => builder
  match ws.inner_size_points_field with
  | some s => builder.with_inner_size s
  | none => builder

/-- WindowSettings::inner_size_points. -/
def WindowSettings.inner_size_points (ws : WindowSettings) : Option Vec2 :=
  ws.inner_size_points_field

/-- Graphics backend selection. -/
inductive Renderer where
  | Glow : Renderer
  | Wgpu : Renderer
deriving DecidableEq, Repr

/-- epi::NativeOptions, restricted to the fields the integration layer
reads. -/
structure NativeOptions where
  viewport : ViewportBuilder
  centered : Bool
  window_builder : Option (ViewportBuilder → ViewportBuilder)
  persist_window : Bool
  renderer : Renderer

/-- viewport_builder (epi_integration.rs): computes the initial
viewport spec.  monitors is the available-monitor enumeration of the
event loop and primary its primary monitor, when reported. -/
def viewport_builder (egui_zoom_factor : ℚ) (monitors : List Monitor)
    (primary : Option Monitor) (native_options : NativeOptions)
    (window_settings : Option WindowSettings) : ViewportBuilder :=
  let vb := native_options.viewport
  let clamp_size_to_monitor_size := vb.clamp_size_to_monitor_size.getD true
  let result :=
    match window_settings with
    | some window_settings =>
        let window_settings :=
          if clamp_size_to_monitor_size then
            window_settings.clamp_size_to_sane_values
              (largest_monitor_point_size egui_zoom_factor monitors)
          else window_settings
        let window_settings :=
          window_settings.clamp_position_to_monitors egui_zoom_factor monitors
        (window_settings.initialize_viewport_builder vb,
         window_settings.inner_size_points)
    | none =>
        let vb :=
          match vb.position with
          | some pos => vb.with_position pos
          | none => vb
        let vb :=
          if clamp_size_to_monitor_size then
            match vb.inner_size with
            | some initial_window_size =>
                vb.with_inner_size
                  (initial_window_size.at_most
                    (largest_monitor_point_size egui_zoom_factor monitors))
            | none => vb
          else vb
        (vb, vb.inner_size)
  let vb := result.1
  let inner_size_points := result.2
  let vb :=
    if native_options.centered then
      match (primary <|> monitors.head?).bind
          (fun m => m.mode.map (fun mode => (m, mode))) with
      | some (monitor, mode) =>
          let monitor_size :=
            toLogical mode (egui_zoom_factor * monitor.scale_factor)
          let inner_size := inner_size_points.getD ⟨800, 600⟩
          if 0 < monitor_size.x ∧ 0 < monitor_size.y then
            vb.with_position
              ⟨(monitor_size.x - inner_size.x) / 2, (monitor_size.y - inner_size.y) / 2⟩
          else vb
      | none => vb
    else vb
  match native_options.window_builder with
  | some hook => hook vb
  | none => vb

/-- The environment-variable override recognized by init_native. -/
def EFRAME_SCREENSHOT_TO : String := "EFRAME_SCREENSHOT_TO"

/-- init_native (lib.rs): outside __screenshot builds, asserts that
EFRAME_SCREENSHOT_TO is unset (a set variable is a fatal startup
panic), then defaults the title to the app name and returns the
configured renderer.  screenshot_feature models the __screenshot cargo
feature; env models std::env::var for EFRAME_SCREENSHOT_TO. -/
def init_native (screenshot_feature : Bool) (env : String → Option String)
    (app_name : String) (native_options : NativeOptions) :
    Except String (Renderer × NativeOptions) :=
  if !screenshot_feature ∧ (env EFRAME_SCREENSHOT_TO).isSome then
    Except.error
      "EFRAME_SCREENSHOT_TO found without compiling with the '__screenshot' feature"
  else
    let native_options :=
      if native_options.viewport.title = none then
        { native_options with
          viewport := { native_options.viewport with title := some app_name } }
      else native_options
    Except.ok (native_options.renderer, native_options)

/-- run_native (lib.rs): init_native first, then dispatch to the
selected backend's run loop; a panic in init_native aborts before any
window or graphics setup. -/
def run_native (screenshot_feature : Bool) (env : String → Option String)
    (app_name : String) (native_options : NativeOptions) :
    Except String Renderer :=
  (init_native screenshot_feature env app_name native_options).map
    (fun r => r.1)

/-- create_native (lib.rs): init_native first, then build the winit
application for the selected backend. -/
def create_native (screenshot_feature : Bool) (env : String → Option String)
    (app_name : String) (native_options : NativeOptions) :
    Except String (Renderer × NativeOptions) :=
  init_native screenshot_feature env app_name native_options

/-- The output of the single UI pass performed inside
EpiIntegration::update: egui runs on the time-stamped, hooked input,
dispatching to the child-viewport callback or to App::update. -/
def passOutput (st : EpiIntegration) (app : App)
    (viewport_ui_cb : Option (RawInput → FullOutput)) (raw_input : RawInput)
    (now : ℚ) : FullOutput :=
  let stamped := { raw_input with time := some (now - st.beginning) }
  match viewport_ui_cb with
  | some cb => cb (app.raw_input_hook stamped)
  | none => app.update_run (app.raw_input_hook stamped)

/-- Whether the pass output vetoes the close of the root viewport. -/
def cancelsClose (out : FullOutput) : Bool :=
  (out.viewport_commands ViewportId.ROOT).contains ViewportCommand.CancelClose

/-- Repeated post_rendering calls, with the concatenated window-call
trace. -/
def postRenderingRun : Nat → EpiIntegration → List WindowCall × EpiIntegration
  | 0, st => ([], st)
  | n + 1, st =>
      let r := st.post_rendering
      let rest := postRenderingRun n r.2
      (r.1 ++ rest.1, rest.2)

/-- A concrete app used to evaluate the theorems on closed inputs. -/
def sampleApp (run : RawInput → FullOutput) : App :=
  { raw_input_hook := id
    update_run := run
    auto_save_interval := 10
    persist_egui_memory := false }

/-- A concrete FullOutput with the given meshes and root-viewport
commands. -/
def outWith (meshes : List Nat) (rootCmds : List ViewportCommand) : FullOutput :=
  ⟨meshes, fun v => if v = ViewportId.ROOT then rootCmds else []⟩

/-- A concrete raw input. -/
def inputWith (req : Bool) (payload : Nat) : RawInput :=
  ⟨none, req, payload⟩

/-- A concrete app whose UI pass vetoes the close exactly when the
input payload is 1. -/
def c1App : App :=
  sampleApp fun i =>
    if i.payload = 1 then outWith [] [ViewportCommand.CancelClose] else outWith [] []

/-- A UI pass that vetoes the close exactly when the input it receives
still carries the close request: the documented veto pattern, where the
app inspects the close request in its input and answers CancelClose. -/
def c10Run : RawInput → FullOutput := fun i =>
  if i.close_requested then outWith [] [ViewportCommand.CancelClose] else outWith [] []

/-- The vetoing app with an identity raw-input hook. -/
def c10KeepApp : App := sampleApp c10Run

/-- The vetoing app with a hook that removes the close request from the
raw input and changes nothing else. -/
def c10DropApp : App :=
  { sampleApp c10Run with
    raw_input_hook := fun i => { i with close_requested := false } }

/-- Concrete native options requesting a 4000x4000 window with default
clamping, no restored settings, no centering and no builder hook. -/
def c7Opts : NativeOptions :=
  { viewport :=
      { title := none
        position := none
        inner_size := some ⟨4000, 4000⟩
        clamp_size_to_monitor_size := none }
    centered := false
    window_builder := none
    persist_window := false
    renderer := Renderer.Glow }

/-- A single 1920x1080 monitor with scale factor 1. -/
def c7Monitors : List Monitor := [⟨some (1920, 1080), 1⟩]

-- Helper lemmas ------------------------------------------------------------

lemma update_fst (st : EpiIntegration) (app : App)
    (cb : Option (RawInput → FullOutput)) (input : RawInput) (now : ℚ) :
    (st.update app cb input now).1 =
      st.pending_full_output.append (passOutput st app cb input now) := by
  cases cb <;>
    simp only [EpiIntegration.update, passOutput] <;>
    split <;> (try split) <;> rfl

lemma update_snd (st : EpiIntegration) (app : App)
    (cb : Option (RawInput → FullOutput)) (input : RawInput) (now : ℚ) :
    (st.update app cb input now).2 =
      { st with
        close := st.close ||
          (cb.isNone && input.close_requested &&
            !cancelsClose (passOutput st app cb input now)),
        pending_full_output := FullOutput.empty } := by
  unfold EpiIntegration.update passOutput cancelsClose
  cases cb with
  | none =>
      dsimp only
      split
      · next hguard =>
          split
          · next hc => cases st; simp_all
          · next hc => cases st; simp_all
      · next hguard => cases st; simp_all
  | some f =>
      dsimp only
      split
      · next hguard =>
          split
          · next hc => cases st; simp_all
          · next hc => cases st; simp_all
      · next hguard => cases st; simp_all

lemma post_rendering_not_first (st : EpiIntegration)
    (h : st.is_first_frame = false) : st.post_rendering = ([], st) := by
  unfold EpiIntegration.post_rendering
  cases st
  simp_all

lemma postRenderingRun_not_first (n : Nat) (st : EpiIntegration)
    (h : st.is_first_frame = false) : postRenderingRun n st = ([], st) := by
  induction n with
  | zero => rfl
  | succ k ih =>
      unfold postRenderingRun
      rw [post_rendering_not_first st h]
      simp [ih]

-- Claim theorems ------------------------------------------------------------

/-- C2: the close flag is monotone over the session: it is false after
EpiIntegration::new; update can only keep it or raise it to true (the
exact transition condition is the displayed Bool formula); no other
operation of the integration changes it. -/
theorem claim_c2_close_flag_monotone :
    (∀ (now : ℚ) (storage : Option Unit) (pw : Bool), (EpiIntegration.new now storage pw).close = false) ∧
    (∀ (st : EpiIntegration) (app : App) (cb : Option (RawInput → FullOutput)) (input : RawInput) (now : ℚ), st.close ≤ ((st.update app cb input now).2).close) ∧
    (∀ (st : EpiIntegration) (app : App) (cb : Option (RawInput → FullOutput)) (input : RawInput) (now : ℚ),
       ((st.update app cb input now).2).close =
         (st.close || (cb.isNone && input.close_requested &&
           !cancelsClose (passOutput st app cb input now)))) ∧
    (∀ (st : EpiIntegration) (e : WindowEvent), (st.on_window_event e).close = st.close) ∧
    (∀ (st : EpiIntegration) (s : ℚ), (st.report_frame_time s).close = st.close) ∧
    (∀ (st : EpiIntegration), (st.post_rendering.2).close = st.close) ∧
    (∀ (st : EpiIntegration) (app : App) (w : Option Unit) (now : ℚ), ((st.maybe_autosave app w now).2.2).close = st.close) := by
  refine ⟨fun _ _ _ => rfl, ?_, ?_, ?_, ?_, ?_, ?_⟩
  · intro st app cb input now
    rw [update_snd]
    cases h : st.close <;> simp
  · intro st app cb input now
    rw [update_snd]
  · intro st e
    cases e <;> rfl
  · intro st s
    rfl
  · intro st
    unfold EpiIntegration.post_rendering
    split <;> rfl
  · intro st app w now
    unfold EpiIntegration.maybe_autosave
    split <;> rfl

/-- C3: update merges the pass output into the pending buffer by
accumulation, returns the accumulated buffer, and resets the pending
buffer to empty; in particular two single-mesh passes merged before the
retrieval yield a combined buffer with both meshes. -/
theorem claim_c3_output_merge_accumulates :
    ∀ (st : EpiIntegration) (app : App) (cb : Option (RawInput → FullOutput)) (input : RawInput) (now : ℚ),
      (st.update app cb input now).1 =
        st.pending_full_output.append (passOutput st app cb input now) ∧
      ((st.update app cb input now).1).meshes =
        st.pending_full_output.meshes ++ (passOutput st app cb input now).meshes ∧
      ((st.update app cb input now).2).pending_full_output = FullOutput.empty ∧
      (∀ m1 m2, st.pending_full_output.meshes = [m1] →
        (passOutput st app cb input now).meshes = [m2] →
        ((st.update app cb input now).1).meshes = [m1, m2]) := by
  intro st app cb input now
  refine ⟨update_fst st app cb input now, ?_, ?_, ?_⟩
  · rw [update_fst]
    rfl
  · rw [update_snd]
  · intro m1 m2 h1 h2
    rw [update_fst]
    show st.pending_full_output.meshes ++ (passOutput st app cb input now).meshes = _
    rw [h1, h2]
    rfl

/-- Witness for C3: a single-mesh pending buffer merged with a
single-mesh pass output yields the two-mesh buffer. -/
theorem claim_c3_output_merge_accumulates_witness :
    ((({ EpiIntegration.new 0 none false with
          pending_full_output := outWith [5] [] }).update
        (sampleApp fun _ => outWith [7] []) none (inputWith false 0) 1).1).meshes =
      [5, 7] :=
  (claim_c3_output_merge_accumulates
    { EpiIntegration.new 0 none false with pending_full_output := outWith [5] [] }
    (sampleApp fun _ => outWith [7] []) none (inputWith false 0) 1).2.2.2 5 7 rfl rfl

/-- C4: maybe_autosave saves exactly when the time since the last
autosave exceeds the app's auto-save interval, in which case it resets
the last-autosave timestamp to the time of the check; a triggering call
followed by a second call within one interval saves exactly once. -/
theorem claim_c4_autosave_debounce :
    (∀ (st : EpiIntegration) (app : App) (w : Option Unit) (now : ℚ),
       (st.maybe_autosave app w now).1 =
         decide (now - st.last_auto_save > app.auto_save_interval)) ∧
    (∀ (st : EpiIntegration) (app : App) (w : Option Unit) (now : ℚ),
       ((st.maybe_autosave app w now).2.2).last_auto_save =
         if now - st.last_auto_save > app.auto_save_interval then now
         else st.last_auto_save) ∧
    (∀ (st : EpiIntegration) (app : App) (w : Option Unit) (now : ℚ),
       (st.maybe_autosave app w now).1 = true →
       (st.maybe_autosave app w now).2.1 = st.save app w) ∧
    (∀ (st : EpiIntegration) (app : App) (w : Option Unit) (t1 t2 : ℚ),
       t1 - st.last_auto_save > app.auto_save_interval →
       t2 - t1 ≤ app.auto_save_interval →
       (st.maybe_autosave app w t1).1 = true ∧
       (((st.maybe_autosave app w t1).2.2).maybe_autosave app w t2).1 = false) := by
  refine ⟨?_, ?_, ?_, ?_⟩
  · intro st app w now
    unfold EpiIntegration.maybe_autosave
    split
    · next h => simp [h]
    · next h => simp [h]
  · intro st app w now
    unfold EpiIntegration.maybe_autosave
    split
    · next h => simp [h]
    · next h => simp [h]
  · intro st app w now h
    unfold EpiIntegration.maybe_autosave at h ⊢
    split
    · rfl
    · next hc =>
        rw [if_neg hc] at h
        exact absurd h (by simp)
  · intro st app w t1 t2 h1 h2
    unfold EpiIntegration.maybe_autosave
    rw [if_pos h1]
    constructor
    · rfl
    · dsimp only
      rw [if_neg (not_lt.mpr h2)]

/-- Witness for C4: from a fresh integration with last autosave at time
0 and a 10-second interval, a call at time 11 saves and a second call
at time 15 does not. -/
theorem claim_c4_autosave_debounce_witness :
    ((EpiIntegration.new 0 none false).maybe_autosave
        (sampleApp fun _ => FullOutput.empty) none 11).1 = true ∧
      ((((EpiIntegration.new 0 none false).maybe_autosave
            (sampleApp fun _ => FullOutput.empty) none 11).2.2).maybe_autosave
          (sampleApp fun _ => FullOutput.empty) none 15).1 = false :=
  claim_c4_autosave_debounce.2.2.2 (EpiIntegration.new 0 none false)
    (sampleApp fun _ => FullOutput.empty) none 11 15
    (by norm_num [EpiIntegration.new, sampleApp])
    (by norm_num [sampleApp])

/-- C9: across any sequence of post_rendering calls the window is made
visible exactly on the first call: a fresh integration has the
first-frame flag set, the first post_rendering call emits the single
set-visible call and clears the flag, and any call on a state whose
flag is cleared emits nothing and leaves the state unchanged. -/
theorem claim_c9_first_paint_visibility :
    (∀ (now : ℚ) (storage : Option Unit) (pw : Bool), (EpiIntegration.new now storage pw).is_first_frame = true) ∧
    (∀ (st : EpiIntegration), st.is_first_frame = true →
       st.post_rendering.1 = [WindowCall.setVisible true] ∧
       (st.post_rendering.2).is_first_frame = false ∧
       ∀ n, (postRenderingRun (n + 1) st).1 = [WindowCall.setVisible true]) ∧
    (∀ (st : EpiIntegration), st.is_first_frame = false → st.post_rendering = ([], st)) := by
  refine ⟨fun _ _ _ => rfl, ?_, post_rendering_not_first⟩
  intro st h
  have h1 : st.post_rendering =
      ([WindowCall.setVisible true], { st with is_first_frame := false }) := by
    unfold EpiIntegration.post_rendering
    rw [if_pos h]
  refine ⟨by rw [h1], by rw [h1], ?_⟩
  intro n
  simp only [postRenderingRun, h1,
    postRenderingRun_not_first n { st with is_first_frame := false } rfl,
    List.append_nil]

/-- Witness for C9: two post_rendering calls on a fresh integration
emit exactly one set-visible call. -/
theorem claim_c9_first_paint_visibility_witness :
    (postRenderingRun 2 (EpiIntegration.new 0 none false)).1 =
      [WindowCall.setVisible true] :=
  ((claim_c9_first_paint_visibility.2.1 (EpiIntegration.new 0 none false) rfl).2.2) 1

/-- C1: on a root pass (no viewport callback) whose raw input requests
a close, the close flag is left unchanged when the pass output holds a
CancelClose command for the root viewport and is set otherwise; a
vetoed close request followed by a close request whose pass does not
veto leaves should_close false after the first pass and true after the
second. -/
theorem claim_c1_root_close_veto
    (st : EpiIntegration) (app : App) (input1 input2 : RawInput) (now1 now2 : ℚ)
    (h1 : input1.close_requested = true)
    (h2 : input2.close_requested = true) :
    (cancelsClose (passOutput st app none input1 now1) = true →
      ((st.update app none input1 now1).2).close = st.close) ∧
    (cancelsClose (passOutput st app none input1 now1) = false →
      ((st.update app none input1 now1).2).close = true) ∧
    (st.close = false →
      cancelsClose (passOutput st app none input1 now1) = true →
      cancelsClose
          (passOutput ((st.update app none input1 now1).2) app none input2 now2) =
        false →
      ((st.update app none input1 now1).2).should_close = false ∧
      ((((st.update app none input1 now1).2).update app none input2 now2).2).should_close =
        true) := by
  refine ⟨?_, ?_, ?_⟩
  · intro hc
    rw [update_snd]
    simp [h1, hc]
  · intro hc
    rw [update_snd]
    simp [h1, hc]
  · intro hcl hc1 hc2
    have s1close : ((st.update app none input1 now1).2).close = false := by
      rw [update_snd]
      simp [h1, hc1, hcl]
    refine ⟨s1close, ?_⟩
    show (((st.update app none input1 now1).2).update app none input2 now2).2.close = true
    rw [update_snd]
    simp [h2, hc2, s1close]

/-- Witness for C1: with an app that vetoes exactly the pass whose
payload is 1, a close request with payload 1 leaves should_close false
and a subsequent close request with payload 2 sets it true. -/
theorem claim_c1_root_close_veto_witness :
    (((EpiIntegration.new 0 none false).update c1App none
        (inputWith true 1) 1).2).should_close = false ∧
      (((((EpiIntegration.new 0 none false).update c1App none
            (inputWith true 1) 1).2).update c1App none
          (inputWith true 2) 2).2).should_close = true :=
  (claim_c1_root_close_veto (EpiIntegration.new 0 none false) c1App
      (inputWith true 1) (inputWith true 2) 1 2 rfl rfl).2.2 rfl (by decide) (by decide)

/-- C5: with a storage present, EpiIntegration::save produces its
storage effects in the order window geometry, UI memory, application
state, flush: the trace is a sublist of that four-event order, and the
application-state write immediately followed by the flush is always its
suffix, regardless of the conditional writes. -/
theorem claim_c5_save_order
    (st : EpiIntegration) (app : App) (w : Option Unit)
    (h : st.frame.storage.isSome = true) :
    (st.save app w).Sublist
        [StorageEvent.setWindowSettings, StorageEvent.setEguiMemory,
         StorageEvent.appSave, StorageEvent.flush] ∧
      List.IsSuffix [StorageEvent.appSave, StorageEvent.flush] (st.save app w) := by
  unfold EpiIntegration.save
  cases hs : st.frame.storage with
  | none => rw [hs] at h; simp at h
  | some u =>
      cases w <;>
        by_cases hp : st.persist_window <;>
        by_cases hm : app.persist_egui_memory <;>
        simp only [hp, hm, if_pos, if_neg, if_true, if_false, Bool.false_eq_true,
          not_false_iff, List.nil_append, List.cons_append, List.append_nil] <;>
        exact ⟨by decide, by decide⟩

/-- Witness for C5: a storage-backed integration with window
persistence off and no window writes exactly the app state then the
flush. -/
theorem claim_c5_save_order_witness :
    ((EpiIntegration.new 0 (some ()) false).save
          (sampleApp fun _ => FullOutput.empty) none).Sublist
        [StorageEvent.setWindowSettings, StorageEvent.setEguiMemory,
         StorageEvent.appSave, StorageEvent.flush] ∧
      List.IsSuffix [StorageEvent.appSave, StorageEvent.flush]
        ((EpiIntegration.new 0 (some ()) false).save
          (sampleApp fun _ => FullOutput.empty) none) :=
  claim_c5_save_order (EpiIntegration.new 0 (some ()) false)
    (sampleApp fun _ => FullOutput.empty) none rfl

/-- C10, counterexample: two apps sharing the same UI pass (which
vetoes exactly when the input it sees still carries the close request)
differ only in that one's hook removes the close request from the raw
input; on the same close-requesting input one pass leaves the close
flag false and the other sets it true, so such a hook does affect the
close decision of the pass. -/
theorem claim_c10_counterexample :
    c10KeepApp.update_run = c10DropApp.update_run ∧
      c10KeepApp.raw_input_hook (inputWith true 0) = inputWith true 0 ∧
      c10DropApp.raw_input_hook (inputWith true 0) = inputWith false 0 ∧
      (((EpiIntegration.new 0 none false).update c10KeepApp none
          (inputWith true 0) 1).2).should_close = false ∧
      (((EpiIntegration.new 0 none false).update c10DropApp none
          (inputWith true 0) 1).2).should_close = true :=
  ⟨rfl, rfl, rfl, by decide, by decide⟩

/-- C10, amended: update latches the close-request flag from the
incoming raw input before invoking the raw-input hook, so the
close-request guard of the pass is determined solely by the input as
delivered by the windowing layer; the hook influences the close
decision only through the pass output (the CancelClose veto), never
through the guard. -/
theorem claim_c10_close_guard_prehook :
    ∀ (st : EpiIntegration) (app : App) (cb : Option (RawInput → FullOutput))
      (input : RawInput) (now : ℚ),
      ((st.update app cb input now).2).close =
        (st.close || (cb.isNone && input.close_requested &&
          !cancelsClose (passOutput st app cb input now))) := by
  intro st app cb input now
  rw [update_snd]

-- Order lemmas for the componentwise maximum ---------------------------------

lemma Vec2.le_rfl (a : Vec2) : a.le a := ⟨le_refl a.x, le_refl a.y⟩

lemma Vec2.le_trans {a b c : Vec2} (h1 : a.le b) (h2 : b.le c) : a.le c :=
  ⟨h1.1.trans h2.1, h1.2.trans h2.2⟩

lemma Vec2.le_comp_max_left (a b : Vec2) : a.le (a.max b) :=
  ⟨le_max_left a.x b.x, le_max_left a.y b.y⟩

lemma Vec2.le_comp_max_right (a b : Vec2) : b.le (a.max b) :=
  ⟨le_max_right a.x b.x, le_max_right a.y b.y⟩

/-- The loop body of largest_monitor_point_size. -/
def monitorStep (z : ℚ) (max_size : Vec2) (monitor : Monitor) : Vec2 :=
  match monitor.mode with
  | none => max_size
  | some physical =>
      max_size.max (toLogical physical (z * monitor.scale_factor))

lemma monitorMaxSize_eq_foldl (z : ℚ) (ms : List Monitor) :
    monitorMaxSize z ms = ms.foldl (monitorStep z) Vec2.ZERO := by
  unfold monitorMaxSize monitorStep
  rfl

lemma le_foldl_monitorStep (z : ℚ) (ms : List Monitor) :
    ∀ init : Vec2, init.le (ms.foldl (monitorStep z) init) := by
  induction ms with
  | nil => intro init; exact Vec2.le_rfl init
  | cons m t ih =>
      intro init
      rw [List.foldl_cons]
      refine Vec2.le_trans ?_ (ih (monitorStep z init m))
      unfold monitorStep
      cases m.mode with
      | none => exact Vec2.le_rfl init
      | some p => exact Vec2.le_comp_max_left init _

lemma mem_le_foldl_monitorStep (z : ℚ) (ms : List Monitor) (m : Monitor)
    (w h : ℚ) (hmem : m ∈ ms) (hmode : m.mode = some (w, h)) :
    ∀ init : Vec2,
      (toLogical (w, h) (z * m.scale_factor)).le (ms.foldl (monitorStep z) init) := by
  induction ms with
  | nil => cases hmem
  | cons hd t ih =>
      intro init
      rw [List.foldl_cons]
      rcases List.mem_cons.mp hmem with heq | htail
      · subst heq
        refine Vec2.le_trans ?_ (le_foldl_monitorStep z t (monitorStep z init m))
        unfold monitorStep
        rw [hmode]
        exact Vec2.le_comp_max_right init _
      · exact ih htail (monitorStep z init hd)

lemma monitorMaxSize_le_largest (z : ℚ) (ms : List Monitor) :
    (monitorMaxSize z ms).le (largest_monitor_point_size z ms) := by
  simp only [largest_monitor_point_size]
  split
  · next heq =>
      rw [heq]
      exact ⟨by norm_num [Vec2.ZERO, Vec2.splat], by norm_num [Vec2.ZERO, Vec2.splat]⟩
  · next heq => exact Vec2.le_rfl _

/-- C6: largest_monitor_point_size bounds from above the logical size
(physical size divided by zoom times monitor scale factor) of every
monitor's current mode; when the running componentwise maximum stays
zero it returns the 16000x16000 sentinel, whose components are at least
10000; otherwise it returns the computed maximum; it never returns
0x0. -/
theorem claim_c6_largest_monitor_sentinel :
    ∀ (z : ℚ) (ms : List Monitor),
      (monitorMaxSize z ms = Vec2.ZERO →
        largest_monitor_point_size z ms = Vec2.splat 16000 ∧
        (10000 : ℚ) ≤ (largest_monitor_point_size z ms).x ∧
        (10000 : ℚ) ≤ (largest_monitor_point_size z ms).y) ∧
      (monitorMaxSize z ms ≠ Vec2.ZERO →
        largest_monitor_point_size z ms = monitorMaxSize z ms) ∧
      (∀ m ∈ ms, ∀ w h : ℚ, m.mode = some (w, h) →
        (toLogical (w, h) (z * m.scale_factor)).le
          (largest_monitor_point_size z ms)) ∧
      largest_monitor_point_size z ms ≠ ⟨0, 0⟩ := by
  intro z ms
  refine ⟨?_, ?_, ?_, ?_⟩
  · intro heq
    simp only [largest_monitor_point_size]
    rw [if_pos heq]
    refine ⟨rfl, ?_, ?_⟩ <;> norm_num [Vec2.splat]
  · intro hne
    simp only [largest_monitor_point_size]
    rw [if_neg hne]
  · intro m hmem w h hmode
    refine Vec2.le_trans ?_ (monitorMaxSize_le_largest z ms)
    rw [monitorMaxSize_eq_foldl]
    exact mem_le_foldl_monitorStep z ms m w h hmem hmode Vec2.ZERO
  · simp only [largest_monitor_point_size]
    split
    · next heq =>
        intro hcontra
        have : (16000 : ℚ) = 0 := congrArg Vec2.x hcontra
        norm_num at this
    · next hne =>
        intro hcontra
        exact hne (by rw [hcontra]; rfl)

/-- Witness for C6: with one mode-less monitor the sentinel is
returned; with one 1920x1080 monitor at scale 1 and zoom 1 the
converted mode size is bounded by the result. -/
theorem claim_c6_largest_monitor_sentinel_witness :
    largest_monitor_point_size 1 [⟨none, 1⟩] = Vec2.splat 16000 ∧
      (toLogical (1920, 1080) (1 * (1 : ℚ))).le
        (largest_monitor_point_size 1 c7Monitors) :=
  ⟨((claim_c6_largest_monitor_sentinel 1 [⟨none, 1⟩]).1 rfl).1,
   (claim_c6_largest_monitor_sentinel 1 c7Monitors).2.2.1 ⟨some (1920, 1080), 1⟩
     (by simp [c7Monitors]) 1920 1080 rfl⟩

-- C7 -------------------------------------------------------------------------

lemma viewport_builder_inner_size_no_settings
    (z : ℚ) (ms : List Monitor) (primary : Option Monitor) (opts : NativeOptions)
    (S : Vec2)
    (hclamp : opts.viewport.clamp_size_to_monitor_size.getD true = true)
    (hsize : opts.viewport.inner_size = some S)
    (hhook : opts.window_builder = none) :
    (viewport_builder z ms primary opts none).inner_size =
      some (S.at_most (largest_monitor_point_size z ms)) := by
  simp only [viewport_builder, hclamp, hhook, if_true]
  cases hpos : opts.viewport.position <;>
    simp only [hpos, hsize, ViewportBuilder.with_position,
      ViewportBuilder.with_inner_size] <;>
    split <;>
    (try split) <;>
    (try split) <;>
    rfl

/-- C7: with no restored window settings, clamping enabled and a
requested inner size S, the initial viewport's inner size is the
componentwise minimum of S and the largest-monitor bound M; hence the
result is at most M componentwise (in particular when S exceeds M in
both components) and equals S whenever S is at most M componentwise. -/
theorem claim_c7_initial_size_clamp
    (z : ℚ) (ms : List Monitor) (primary : Option Monitor) (opts : NativeOptions)
    (S : Vec2)
    (hclamp : opts.viewport.clamp_size_to_monitor_size.getD true = true)
    (hsize : opts.viewport.inner_size = some S)
    (hhook : opts.window_builder = none) :
    (viewport_builder z ms primary opts none).inner_size =
      some (S.at_most (largest_monitor_point_size z ms)) ∧
    (S.at_most (largest_monitor_point_size z ms)).le
      (largest_monitor_point_size z ms) ∧
    ((largest_monitor_point_size z ms).x < S.x →
      (largest_monitor_point_size z ms).y < S.y →
      ∃ R : Vec2, (viewport_builder z ms primary opts none).inner_size = some R ∧
        R.le (largest_monitor_point_size z ms)) ∧
    (S.le (largest_monitor_point_size z ms) →
      (viewport_builder z ms primary opts none).inner_size = some S) := by
  have hmain := viewport_builder_inner_size_no_settings z ms primary opts S hclamp hsize hhook
  have hbound : (S.at_most (largest_monitor_point_size z ms)).le
      (largest_monitor_point_size z ms) :=
    ⟨min_le_right _ _, min_le_right _ _⟩
  refine ⟨hmain, hbound, ?_, ?_⟩
  · intro _ _
    exact ⟨S.at_most (largest_monitor_point_size z ms), hmain, hbound⟩
  · intro hle
    rw [hmain]
    have : S.at_most (largest_monitor_point_size z ms) = S := by
      unfold Vec2.at_most Vec2.min
      cases S
      simp only [Vec2.mk.injEq]
      exact ⟨min_eq_left hle.1, min_eq_left hle.2⟩
    rw [this]

/-- Witness for C7: a requested 4000x4000 window on a single 1920x1080
monitor (scale 1, zoom 1) is clamped to 1920x1080. -/
theorem claim_c7_initial_size_clamp_witness :
    (viewport_builder 1 c7Monitors none c7Opts none).inner_size =
      some ⟨1920, 1080⟩ := by
  rw [(claim_c7_initial_size_clamp 1 c7Monitors none c7Opts ⟨4000, 4000⟩
    rfl rfl rfl).1]
  norm_num [Vec2.at_most, Vec2.min, largest_monitor_point_size, monitorMaxSize,
    c7Monitors, toLogical, Vec2.max, Vec2.ZERO, Vec2.splat, min_def, max_def]

-- C8 -------------------------------------------------------------------------

/-- C8: compiled without the __screenshot feature, init_native — and
with it run_native and create_native — fails with the startup
assertion whenever the EFRAME_SCREENSHOT_TO environment variable is
set, before any window or graphics setup is reached. -/
theorem claim_c8_screenshot_env_assert
    (env : String → Option String) (app_name : String) (opts : NativeOptions)
    (v : String) (h : env EFRAME_SCREENSHOT_TO = some v) :
    init_native false env app_name opts =
      Except.error
        "EFRAME_SCREENSHOT_TO found without compiling with the '__screenshot' feature" ∧
    run_native false env app_name opts =
      Except.error
        "EFRAME_SCREENSHOT_TO found without compiling with the '__screenshot' feature" ∧
    create_native false env app_name opts =
      Except.error
        "EFRAME_SCREENSHOT_TO found without compiling with the '__screenshot' feature" := by
  have hi : init_native false env app_name opts =
      Except.error
        "EFRAME_SCREENSHOT_TO found without compiling with the '__screenshot' feature" := by
    have hc : ((!false : Bool) = true) ∧ ((env EFRAME_SCREENSHOT_TO).isSome = true) :=
      ⟨rfl, by rw [h]; rfl⟩
    unfold init_native
    rw [if_pos hc]
  refine ⟨hi, ?_, hi⟩
  unfold run_native
  rw [hi]
  rfl

/-- Witness for C8: with the variable set to a concrete value, startup
fails with the assertion message. -/
theorem claim_c8_screenshot_env_assert_witness :
    run_native false (fun _ => some "snap.png") "app" c7Opts =
      Except.error
        "EFRAME_SCREENSHOT_TO found without compiling with the '__screenshot' feature" :=
  (claim_c8_screenshot_env_assert (fun _ => some "snap.png") "app" c7Opts
    "snap.png" rfl).2.1
